import Mathlib

/-!
Shallow embedding of the Venafi Cloud connector
(`vendor/github.com/Venafi/vcert/pkg/venafi/cloud/connector.go`) and of the
test helper file, for checking the natural-language specification.

Modelling conventions:
* The transport adapter (`Connector.request`) and the response parsers that
  live in other files of the vcert package are collaborators; they appear as
  oracle function parameters (`doSearch`, `statusFetch`, `post`, ...).  Each
  oracle stands for the composite "issue the HTTP request and parse the
  body" step whose code is not part of the two source files.
* Wall-clock time is measured in whole seconds.  `time.Now()` at the start
  of `RetrieveCertificate` is the parameter `startTime`; every
  `time.Sleep(2 * time.Second)` advances the clock by 2.
* The poll loop of `RetrieveCertificate` is an unbounded `for` loop in Go;
  it is embedded with an explicit `fuel` bound, `PollResult.fuelOut`
  standing for "the loop has not terminated within `fuel` iterations".
* Every network interaction and every sleep is recorded in an event trace
  (`List Event`) so that claims of the form "no retrieval call is made" /
  "no sleep happens" are statable.
* Go `fmt.Errorf` error values are embedded as constructors of `CloudErr`
  carrying exactly the data interpolated into the Go format string.
* A Go runtime panic (out-of-range indexing) is embedded as the
  `GoResult.crashed` constructor.
-/

namespace VenafiCloud

/-- Chain-order preference of `certificate.Request` (vcert `certificate`
package; only its use sites appear in the source file: the `switch` at
connector.go:275-280 distinguishes `ChainOptionRootFirst` from every other
value). -/
inductive ChainOptionT
  | RootFirst
  | RootLast
  | Ignore
deriving DecidableEq, Repr

/-- CSR origin of `certificate.Request`; connector.go:160 only distinguishes
`ServiceGeneratedCSR` from the rest. -/
inductive CsrOriginT
  | LocalGenerated
  | UserProvided
  | ServiceGenerated
deriving DecidableEq, Repr

/-- The slice of `userDetails` the connector reads: only whether the
`Company` pointer is nil (connector.go:165, 270, 370). -/
structure userDetails where
  Company : Option Unit
deriving DecidableEq, Repr

/-- `cloud.Connector` (connector.go:58-65); the `verbose` and `trust`
fields play no role in the embedded operations and are omitted. -/
structure Connector where
  baseURL : String
  apiKey : String
  user : Option userDetails
  zone : String
deriving DecidableEq, Repr

def apiURL : String := "api.venafi.cloud/v1/"

def urlResourceUserAccounts : String := "useraccounts"
def urlResourceZones : String := "zones"
def urlResourceZoneByTag : String := urlResourceZones ++ "/tag/%s"
def urlResourceCertificatePolicies : String := "certificatepolicies"
def urlResourcePoliciesByID : String := urlResourceCertificatePolicies ++ "/%s"
def urlResourceCertificateRequests : String := "certificaterequests"
def urlResourceCertificateStatus : String := urlResourceCertificateRequests ++ "/%s"
def urlResourceCertificateRetrieve : String := urlResourceCertificateRequests ++ "/%s/certificate"
def urlResourceCertificateSearch : String := "certificatesearch"
def urlResourceManagedCertificates : String := "managedcertificates"
def urlResourceManagedCertificateById : String := urlResourceManagedCertificates ++ "/%s"

def condorChainOptionRootFirst : String := "ROOT_FIRST"
def condorChainOptionRootLast : String := "EE_FIRST"

/-- Modelled from the spec: `Connector.getURL` is defined outside the given
source files; per §6 the resource paths are appended to the connector's
base URL with parameters substituted afterwards. -/
def getURL (c : Connector) (r : String) : String := c.baseURL ++ r

/-- Whether the character list contains a `%s` format verb. -/
def hasVerb : List Char → Bool
  | [] => false
  | [_] => false
  | c :: d :: t => (c = '%' && d = 's') || hasVerb (d :: t)

/-- One-argument `fmt.Sprintf` over `%s` verbs, on character lists: the
first verb receives `arg`, later verbs become `%!s(MISSING)`, and if no
verb consumed the argument Go appends `%!(EXTRA string=arg)`. -/
def goSubstS (arg : List Char) : List Char → Bool → List Char
  | [], used => if used then [] else "%!(EXTRA string=".data ++ arg ++ [')']
  | [c], used => c :: goSubstS arg [] used
  | c :: d :: t, used =>
    if c = '%' && d = 's' then
      (if used then "%!s(MISSING)".data else arg) ++ goSubstS arg t true
    else
      c :: goSubstS arg (d :: t) used

/-- One-argument `fmt.Sprintf(fmt, arg)` for string verbs. -/
def sprintfS (fmt arg : String) : String := String.mk (goSubstS arg.data fmt.data false)

/-- `certificateStatus` (the fields read at connector.go:253-262 and
339-347). -/
structure certificateStatus where
  Status : String
  ZoneId : String
  ManagedCertificateId : String
deriving DecidableEq, Repr

/-- `managedCertificate` (connector.go:483-488). -/
structure managedCertificate where
  Id : String
  CompanyId : String
  LatestCertificateRequestId : String
  CertificateName : String
deriving DecidableEq, Repr

/-- An element of `CertificateSearchResponse.Certificates`; the connector
reads only its `CertificateRequestId` (connector.go:233-238, 317-322). -/
structure searchCertificate where
  CertificateRequestId : String
deriving DecidableEq, Repr

/-- `CertificateSearchResponse` as consumed by the connector. -/
structure CertificateSearchResponse where
  Certificates : List searchCertificate
deriving DecidableEq, Repr

/-- An operand of the certificate-search expression (search.go of the vcert
cloud package; the source file only constructs the literal at
connector.go:458-468 with positional fields field/operator/value). -/
structure Operand where
  field : String
  operator : String
  value : String
deriving DecidableEq, Repr

structure SearchExpression where
  Operands : List Operand
deriving DecidableEq, Repr

/-- `SearchRequest` as built by `searchCertificatesByFingerprint`. -/
structure SearchRequest where
  Expression : Option SearchExpression
deriving DecidableEq, Repr

def MATCH : String := "MATCH"

/-- Outbound `certificateRequest` body (fields set at connector.go:173 and
374-380; unset Go fields keep their zero values). -/
structure certificateRequest where
  ZoneID : String
  CSR : String
  ExistingManagedCertificateId : String
  ReuseCSR : Bool
deriving DecidableEq, Repr

/-- One element of the parsed request acknowledgment
(`cr.CertificateRequests[0].ID`, connector.go:182 and 390). -/
structure certificateRequestItem where
  ID : String
deriving DecidableEq, Repr

/-- Parsed acknowledgment of a certificate-request submission. -/
structure certificateRequestResult where
  CertificateRequests : List certificateRequestItem
deriving DecidableEq, Repr

/-- The slice of `zone` read by `RequestCertificate` /
`ReadZoneConfiguration` (connector.go:145, 173). -/
structure zone where
  ID : String
  DefaultCertificateIdentityPolicy : String
  DefaultCertificateUsePolicy : String
deriving DecidableEq, Repr

/-- Tag of a `certificatePolicy` fragment.  Modelled from the spec: the two
constants `certificatePolicyTypeIdentity` / `certificatePolicyTypeUse` are
defined outside the given source files; §4.1/§9 describe the policy type as
a tagged union with an identity variant, a use variant, and unknown tags
that are ignored.  `other s` stands for any other tag value `s` (the Go
zero value is `other ""`). -/
inductive certificatePolicyKind
  | identity
  | use
  | other (tag : String)
deriving DecidableEq, Repr

/-- `certificatePolicy` (the fields read and written at
connector.go:423-435). `KeyTypes` elements are kept abstract as strings. -/
structure certificatePolicy where
  CertificatePolicyType : certificatePolicyKind
  SubjectCNRegexes : List String
  SubjectORegexes : List String
  SubjectOURegexes : List String
  SubjectSTRegexes : List String
  SubjectLRegexes : List String
  SubjectCRegexes : List String
  SANRegexes : List String
  KeyTypes : List String
  KeyReuse : Bool
deriving DecidableEq, Repr

/-- `new(certificatePolicy)`: the Go zero value (connector.go:411). -/
def emptyCertificatePolicy : certificatePolicy :=
  { CertificatePolicyType := .other ""
    SubjectCNRegexes := []
    SubjectORegexes := []
    SubjectOURegexes := []
    SubjectSTRegexes := []
    SubjectLRegexes := []
    SubjectCRegexes := []
    SANRegexes := []
    KeyTypes := []
    KeyReuse := false }

/-- `certificate.Request` (vcert `certificate` package), restricted to the
fields the connector reads: connector.go:160, 173, 183, 216, 220, 249, 259,
262, 275. -/
structure Request where
  CsrOrigin : CsrOriginT
  CSR : String
  FetchPrivateKey : Bool
  PickupID : String
  Thumbprint : String
  Timeout : Nat
  ChainOption : ChainOptionT
deriving DecidableEq, Repr

/-- `certificate.RenewalRequest`, restricted to the fields read at
connector.go:305, 327-329, 358, 375-376. -/
structure RenewalRequest where
  Thumbprint : String
  CertificateDN : String
  CertificateRequest : Option Request
deriving DecidableEq, Repr

/-- Structured stand-ins for the Go error values produced by the connector;
each constructor corresponds to one `fmt.Errorf` / typed-error site and
carries exactly the data interpolated there. -/
inductive CloudErr
  | fetchPrivateKeyNotSupported
  | retrieveSearchFailed (inner : String)
  | noCertFoundByFingerprint (fp : String)
  | moreThanOneRequestId (reqIds : List String)
  | renewSearchFailed (inner : String)
  | renewMoreThanOneRequestId (reqIds : List String)
  | missingRenewalTarget
  | unableToRetrieve (inner : String)
  | failedStatus (st : certificateStatus)
  | certificatePendingErr (certificateID : String) (status : String)
  | retrieveTimeoutErr (certificateID : String)
  | mustAuthenticate (action : String)
  | retrievalFailed (statusCode : Nat) (status : String) (body : String)
  | serviceCSRNotSupported
  | certificateRenewFailed (inner : String)
  | emptyManagedCertificateId (status : String)
  | emptyZoneId (status : String)
  | renewLookupFailed (inner : String)
  | notLatestRequest (requestId : String) (managedCertificateId : String)
      (latestRequestId : String) (thumbprint : String)
  | renewSubmitParseFailed (inner : String)
  | collab (inner : String)
  | outOfFuel
deriving DecidableEq, Repr

/-- Result of a Go function that can also panic at runtime. -/
inductive GoResult (α : Type)
  | ok (a : α)
  | err (e : CloudErr)
  | crashed (msg : String)
deriving DecidableEq, Repr

/-- Network/sleep events, in program order. -/
inductive Event
  | searchCert (req : SearchRequest)
  | statusGet (requestID : String)
  | sleepSec (n : Nat)
  | certRetrieve (url : String)
  | zoneGet (tag : String)
  | postCertRequest (body : certificateRequest)
  | managedCertGet (id : String)
deriving DecidableEq, Repr

/-- `c.user == nil || c.user.Company == nil` (connector.go:165, 270, 370). -/
def connectorNotAuthed (c : Connector) : Bool :=
  match c.user with
  | none => true
  | some u => u.Company.isNone

/-- The normalization applied by `searchCertificatesByFingerprint`
(connector.go:455-457): `strings.Replace(fp, ":", "", -1)` deletes every
colon, then every dot is deleted, then `strings.ToUpper` upper-cases the
result (per-character; the fingerprints at issue are ASCII hex). -/
def searchCertificatesByFingerprintRequest (fp : String) : SearchRequest :=
  let fp1 := String.mk (fp.data.filter (fun c => c ≠ ':'))
  let fp2 := String.mk (fp1.data.filter (fun c => c ≠ '.'))
  let fp3 := String.mk (fp2.data.map Char.toUpper)
  { Expression := some { Operands := [{ field := "fingerprint", operator := MATCH, value := fp3 }] } }

/-- The spec's fingerprint normalization, in its own words: delete every
colon, delete every dot, and upper-case the result. -/
def specNormalizeFingerprint (fp : String) : String :=
  String.mk (((fp.data.filter (fun c => c ≠ ':')).filter (fun c => c ≠ '.')).map Char.toUpper)

/-- The scan over `searchResult.Certificates` (connector.go:231-239, and
its verbatim copy at 315-323): accumulates every `CertificateRequestId`
into `reqIds`, tracks the last seen id in `cid`, and clears `only` when a
certificate's id differs from a non-empty previously seen id. -/
def scanRequestIds : List searchCertificate → String → List String → Bool →
    String × List String × Bool
  | [], cid, reqIds, only => (cid, reqIds, only)
  | cert :: rest, cid, reqIds, only =>
    let reqIds' := reqIds ++ [cert.CertificateRequestId]
    let only' := if cid ≠ "" ∧ cid ≠ cert.CertificateRequestId then false else only
    scanRequestIds rest cert.CertificateRequestId reqIds' only'

/-- The fingerprint-resolution fold started from the Go zero values. -/
def resolveCertificateRequestId (certs : List searchCertificate) :
    String × List String × Bool :=
  scanRequestIds certs "" [] true

/-- Outcome of the poll loop at connector.go:248-267.  `cancelledHost` is
modelled from the spec (§4.2/§5 demand a `Cancelled` outcome distinct from
the timeout); it exists so that its absence from the code's behaviour can
be stated — no equation of `pollLoop` produces it. -/
inductive PollResult
  | issued
  | statusError (e : String)
  | issuanceFailed (st : certificateStatus)
  | pending (certificateID : String) (status : String)
  | timedOut (certificateID : String)
  | cancelledHost
  | fuelOut
deriving DecidableEq, Repr

/-- The poll loop of `RetrieveCertificate` (connector.go:248-267).
`statusFetch i` is the parsed result of the `i`-th `getCertificateStatus`
call (transport + JSON parsing composite); `now` is the wall clock at the
top of the iteration, advanced by 2 by each `time.Sleep(2 * time.Second)`;
`fuel` bounds the number of iterations (the Go loop is unbounded). -/
def pollLoop (pickupID : String) (timeout startTime : Nat)
    (statusFetch : Nat → Except String certificateStatus) :
    Nat → Nat → Nat → PollResult × List Event
  | 0, _, _ => (.fuelOut, [])
  | fuel + 1, i, now =>
    match statusFetch i with
    | .error e => (.statusError e, [.statusGet pickupID])
    | .ok st =>
      if st.Status = "ISSUED" then (.issued, [.statusGet pickupID])
      else if st.Status = "FAILED" then (.issuanceFailed st, [.statusGet pickupID])
      else if timeout = 0 then (.pending pickupID st.Status, [.statusGet pickupID])
      else if startTime + timeout < now then (.timedOut pickupID, [.statusGet pickupID])
      else
        let r := pollLoop pickupID timeout startTime statusFetch fuel (i + 1) (now + 2)
        (r.1, .statusGet pickupID :: .sleepSec 2 :: r.2)

/-- Modelled from the spec: §4.2/§5 require the wait loop to consult a
host-cancellation signal at the top of each iteration.  The Go loop at
connector.go:248-267 is a plain `for` loop with `time.Sleep`; no
`context.Context` or other cancellation channel is plumbed in, so the
signal `cancelled` is unread by the embedded code. -/
def pollLoopCancelAware (cancelled : Nat → Bool) (pickupID : String)
    (timeout startTime : Nat) (statusFetch : Nat → Except String certificateStatus)
    (fuel i now : Nat) : PollResult × List Event :=
  pollLoop pickupID timeout startTime statusFetch fuel i now

/-- The retrieval call performed once the poll loop has observed ISSUED
(connector.go:269-291): authentication check, URL assembly with the
`chainOrder` and `format` query parameters, and the 200/409/other
dispatch.  `doRetrieve` is the transport, `parsePEM` stands for
`newPEMCollectionFromResponse` (defined outside the source file). -/
def retrieveIssued {π : Type} (c : Connector) (pickupID : String) (co : ChainOptionT)
    (doRetrieve : String → Except String (Nat × String × String))
    (parsePEM : String → ChainOptionT → Except String π) :
    Except CloudErr π × List Event :=
  if connectorNotAuthed c then (.error (.mustAuthenticate "retieve certificate"), [])
  else
    let url0 := sprintfS (getURL c urlResourceCertificateRetrieve) pickupID
    let url1 := url0 ++ "?chainOrder=%s&format=PEM"
    let url :=
      match co with
      | .RootFirst => sprintfS url1 condorChainOptionRootFirst
      | _ => sprintfS url1 condorChainOptionRootLast
    match doRetrieve url with
    | .error e => (.error (.collab e), [.certRetrieve url])
    | .ok (statusCode, status, body) =>
      if statusCode = 200 then
        match parsePEM body co with
        | .ok p => (.ok p, [.certRetrieve url])
        | .error e => (.error (.collab e), [.certRetrieve url])
      else if statusCode = 409 then
        (.error (.certificatePendingErr pickupID ""), [.certRetrieve url])
      else
        (.error (.retrievalFailed statusCode status body), [.certRetrieve url])

/-- `Connector.RetrieveCertificate` (connector.go:214-292).  `doSearch` is
the composite `searchCertificates` (POST + parse), `statusFetch i` the
parsed result of the `i`-th `getCertificateStatus` call, `doRetrieve` the
final GET, `parsePEM` the PEM-collection parser. -/
def RetrieveCertificate {π : Type} (c : Connector) (req : Request)
    (doSearch : SearchRequest → Except String CertificateSearchResponse)
    (statusFetch : Nat → Except String certificateStatus)
    (doRetrieve : String → Except String (Nat × String × String))
    (parsePEM : String → ChainOptionT → Except String π)
    (fuel startTime : Nat) : Except CloudErr π × List Event :=
  if req.FetchPrivateKey then (.error .fetchPrivateKeyNotSupported, [])
  else
    let resolved : Except CloudErr String × List Event :=
      if req.PickupID = "" ∧ req.Thumbprint ≠ "" then
        let sreq := searchCertificatesByFingerprintRequest req.Thumbprint
        match doSearch sreq with
        | .error e => (.error (.retrieveSearchFailed e), [.searchCert sreq])
        | .ok searchResult =>
          if searchResult.Certificates.length = 0 then
            (.error (.noCertFoundByFingerprint req.Thumbprint), [.searchCert sreq])
          else
            let scan := resolveCertificateRequestId searchResult.Certificates
            if scan.2.2 = false then
              (.error (.moreThanOneRequestId scan.2.1), [.searchCert sreq])
            else (.ok scan.1, [.searchCert sreq])
      else (.ok req.PickupID, [])
    match resolved with
    | (.error e, tr) => (.error e, tr)
    | (.ok pickupID, tr) =>
      let pr := pollLoop pickupID req.Timeout startTime statusFetch fuel 0 startTime
      match pr.1 with
      | .issued =>
        let ri := retrieveIssued c pickupID req.ChainOption doRetrieve parsePEM
        (ri.1, tr ++ pr.2 ++ ri.2)
      | .statusError e => (.error (.unableToRetrieve e), tr ++ pr.2)
      | .issuanceFailed st => (.error (.failedStatus st), tr ++ pr.2)
      | .pending cid s => (.error (.certificatePendingErr cid s), tr ++ pr.2)
      | .timedOut cid => (.error (.retrieveTimeoutErr cid), tr ++ pr.2)
      | .cancelledHost => (.error .outOfFuel, tr ++ pr.2)
      | .fuelOut => (.error .outOfFuel, tr ++ pr.2)

/-- `Connector.RenewCertificate` (connector.go:300-391).  `statusFetchById`
is the composite `getCertificateStatus`, `managedFetch` the composite
`getManagedCertificate`, `post`/`parseCR` the submission POST and
`parseCertificateRequestResult`. -/
def RenewCertificate (c : Connector) (renewReq : RenewalRequest)
    (doSearch : SearchRequest → Except String CertificateSearchResponse)
    (statusFetchById : String → Except String certificateStatus)
    (managedFetch : String → Except String managedCertificate)
    (post : certificateRequest → Except String (Nat × String × String))
    (parseCR : Nat → String → String → Except String certificateRequestResult) :
    GoResult String × List Event :=
  let step1 : Except CloudErr String × List Event :=
    if renewReq.Thumbprint ≠ "" then
      let sreq := searchCertificatesByFingerprintRequest renewReq.Thumbprint
      match doSearch sreq with
      | .error e => (.error (.renewSearchFailed e), [.searchCert sreq])
      | .ok searchResult =>
        if searchResult.Certificates.length = 0 then
          (.error (.noCertFoundByFingerprint renewReq.Thumbprint), [.searchCert sreq])
        else
          let scan := resolveCertificateRequestId searchResult.Certificates
          if scan.2.2 = false then
            (.error (.renewMoreThanOneRequestId scan.2.1), [.searchCert sreq])
          else (.ok scan.1, [.searchCert sreq])
    else if renewReq.CertificateDN ≠ "" then (.ok renewReq.CertificateDN, [])
    else (.error .missingRenewalTarget, [])
  match step1 with
  | (.error e, tr) => (.err e, tr)
  | (.ok certificateRequestId, tr) =>
    match statusFetchById certificateRequestId with
    | .error e => (.err (.certificateRenewFailed e), tr ++ [.statusGet certificateRequestId])
    | .ok previousRequest =>
      let tr1 := tr ++ [.statusGet certificateRequestId]
      let zoneId := previousRequest.ZoneId
      let managedCertificateId := previousRequest.ManagedCertificateId
      if managedCertificateId = "" then
        (.err (.emptyManagedCertificateId previousRequest.Status), tr1)
      else if zoneId = "" then
        (.err (.emptyZoneId previousRequest.Status), tr1)
      else
        match managedFetch managedCertificateId with
        | .error e => (.err (.renewLookupFailed e), tr1 ++ [.managedCertGet managedCertificateId])
        | .ok managedCert =>
          let tr2 := tr1 ++ [.managedCertGet managedCertificateId]
          if managedCert.LatestCertificateRequestId ≠ certificateRequestId then
            (.err (.notLatestRequest certificateRequestId managedCertificateId
                managedCert.LatestCertificateRequestId renewReq.Thumbprint), tr2)
          else if connectorNotAuthed c then
            (.err (.mustAuthenticate "request a certificate"), tr2)
          else
            let body : certificateRequest :=
              match renewReq.CertificateRequest with
              | some cr =>
                if 0 < cr.CSR.length then
                  { ZoneID := zoneId, CSR := cr.CSR,
                    ExistingManagedCertificateId := managedCertificateId, ReuseCSR := false }
                else
                  { ZoneID := zoneId, CSR := "",
                    ExistingManagedCertificateId := managedCertificateId, ReuseCSR := true }
              | none =>
                { ZoneID := zoneId, CSR := "",
                  ExistingManagedCertificateId := managedCertificateId, ReuseCSR := true }
            match post body with
            | .error e => (.err (.collab e), tr2 ++ [.postCertRequest body])
            | .ok (statusCode, status, rbody) =>
              let tr3 := tr2 ++ [.postCertRequest body]
              match parseCR statusCode status rbody with
              | .error e => (.err (.renewSubmitParseFailed e), tr3)
              | .ok cr =>
                match cr.CertificateRequests with
                | [] => (.crashed "index out of range", tr3)
                | x :: _ => (.ok x.ID, tr3)

/-- `Connector.RequestCertificate` (connector.go:154-185).  `zoneFetch` is
the composite `getZoneByTag`, `post`/`parseCR` the submission POST and
`parseCertificateRequestResult`. -/
def RequestCertificate (c : Connector) (req : Request) (zoneArg : String)
    (zoneFetch : String → Except String zone)
    (post : certificateRequest → Except String (Nat × String × String))
    (parseCR : Nat → String → String → Except String certificateRequestResult) :
    GoResult String × List Event :=
  let zoneTag := if zoneArg = "" then c.zone else zoneArg
  if req.CsrOrigin = .ServiceGenerated then
    (.err .serviceCSRNotSupported, [])
  else if connectorNotAuthed c then
    (.err (.mustAuthenticate "request a certificate"), [])
  else
    match zoneFetch zoneTag with
    | .error e => (.err (.collab e), [.zoneGet zoneTag])
    | .ok z =>
      let body : certificateRequest :=
        { ZoneID := z.ID, CSR := req.CSR, ExistingManagedCertificateId := "", ReuseCSR := false }
      match post body with
      | .error e => (.err (.collab e), [.zoneGet zoneTag, .postCertRequest body])
      | .ok (statusCode, status, rbody) =>
        match parseCR statusCode status rbody with
        | .error e => (.err (.collab e), [.zoneGet zoneTag, .postCertRequest body])
        | .ok cr =>
          match cr.CertificateRequests with
          | [] => (.crashed "index out of range", [.zoneGet zoneTag, .postCertRequest body])
          | x :: _ => (.ok x.ID, [.zoneGet zoneTag, .postCertRequest body])

/-- The per-fragment merge step of `getPoliciesByID` (the `switch` at
connector.go:423-435). -/
def mergePolicyFragment (policy p : certificatePolicy) : certificatePolicy :=
  match p.CertificatePolicyType with
  | .identity =>
    { policy with
      SubjectCNRegexes := p.SubjectCNRegexes
      SubjectORegexes := p.SubjectORegexes
      SubjectOURegexes := p.SubjectOURegexes
      SubjectSTRegexes := p.SubjectSTRegexes
      SubjectLRegexes := p.SubjectLRegexes
      SubjectCRegexes := p.SubjectCRegexes
      SANRegexes := p.SANRegexes }
  | .use =>
    { policy with KeyTypes := p.KeyTypes, KeyReuse := p.KeyReuse }
  | .other _ => policy

/-- The fragment loop of `getPoliciesByID` (connector.go:415-436);
`fetch pid` is the composite GET + `parseCertificatePolicyResult` for
policy id `pid`. -/
def getPoliciesByIDLoop (fetch : String → Except String certificatePolicy) :
    List String → certificatePolicy → Except String certificatePolicy
  | [], policy => .ok policy
  | pid :: rest, policy =>
    match fetch pid with
    | .error e => .error e
    | .ok p => getPoliciesByIDLoop fetch rest (mergePolicyFragment policy p)

/-- `Connector.getPoliciesByID` (connector.go:410-438). -/
def getPoliciesByID (c : Connector) (fetch : String → Except String certificatePolicy)
    (ids : List String) : Except String certificatePolicy :=
  if c.user = none then .error "Must be autheticated to read the zone configuration"
  else getPoliciesByIDLoop fetch ids emptyCertificatePolicy

def isIdentityFragment (p : certificatePolicy) : Bool :=
  match p.CertificatePolicyType with
  | .identity => true
  | _ => false

def isUseFragment (p : certificatePolicy) : Bool :=
  match p.CertificatePolicyType with
  | .use => true
  | _ => false

/-- The last identity-type fragment of a fragment sequence, if any. -/
def specLastIdentity : List certificatePolicy → Option certificatePolicy
  | [] => none
  | p :: ps =>
    match specLastIdentity ps with
    | some q => some q
    | none => if isIdentityFragment p then some p else none

/-- The last use-type fragment of a fragment sequence, if any. -/
def specLastUse : List certificatePolicy → Option certificatePolicy
  | [] => none
  | p :: ps =>
    match specLastUse ps with
    | some q => some q
    | none => if isUseFragment p then some p else none

/-- The merged policy as the spec describes it: subject/SAN regex sets
come from identity-type fragments only (the last one when several),
key types and the key-reuse flag from use-type fragments only, fragments
of any other type are ignored, and fields contributed by neither fragment
kind stay empty. -/
def specMergedPolicy (ps : List certificatePolicy) : certificatePolicy :=
  { CertificatePolicyType := .other ""
    SubjectCNRegexes :=
      match specLastIdentity ps with
      | some q => q.SubjectCNRegexes
      | none => []
    SubjectORegexes :=
      match specLastIdentity ps with
      | some q => q.SubjectORegexes
      | none => []
    SubjectOURegexes :=
      match specLastIdentity ps with
      | some q => q.SubjectOURegexes
      | none => []
    SubjectSTRegexes :=
      match specLastIdentity ps with
      | some q => q.SubjectSTRegexes
      | none => []
    SubjectLRegexes :=
      match specLastIdentity ps with
      | some q => q.SubjectLRegexes
      | none => []
    SubjectCRegexes :=
      match specLastIdentity ps with
      | some q => q.SubjectCRegexes
      | none => []
    SANRegexes :=
      match specLastIdentity ps with
      | some q => q.SANRegexes
      | none => []
    KeyTypes :=
      match specLastUse ps with
      | some q => q.KeyTypes
      | none => []
    KeyReuse :=
      match specLastUse ps with
      | some q => q.KeyReuse
      | none => false }

/-- The retrieval URL as the spec describes it: the by-id retrieval path
followed by a `chainOrder` query parameter carrying the `ROOT_FIRST` token
for root-first ordering and the `EE_FIRST` token otherwise, plus
`format=PEM`. -/
def specRetrieveUrl (c : Connector) (pickupID : String) (co : ChainOptionT) : String :=
  (c.baseURL ++ ("certificaterequests/" ++ (pickupID ++ "/certificate"))) ++
    ("?chainOrder=" ++
      ((match co with
        | .RootFirst => condorChainOptionRootFirst
        | _ => condorChainOptionRootLast) ++ "&format=PEM"))

/- ------------------------------------------------------------------ -/
/- Theorems.                                                          -/
/- ------------------------------------------------------------------ -/

theorem hasVerb_append (a b : List Char)
    (ha : hasVerb a = false) (hb : hasVerb b = false)
    (hj : a.getLast? ≠ some '%' ∨ b.head? ≠ some 's') :
    hasVerb (a ++ b) = false := by
  induction a using hasVerb.induct with
  | case1 => simpa using hb
  | case2 c =>
    cases b with
    | nil => simpa using ha
    | cons r rs =>
      have hcr : c ≠ '%' ∨ r ≠ 's' := by
        rcases hj with hj | hj
        · exact Or.inl fun h => hj (by simp [List.getLast?_singleton, h])
        · exact Or.inr fun h => hj (by simp [h])
      show hasVerb (c :: r :: rs) = false
      rcases hcr with h | h <;> simp [hasVerb, hb, h]
  | case3 c d t ih =>
    have ha' : (decide (c = '%') && decide (d = 's')) = false ∧ hasVerb (d :: t) = false := by
      simpa [hasVerb, Bool.or_eq_false_iff] using ha
    have hj' : (d :: t).getLast? ≠ some '%' ∨ b.head? ≠ some 's' := by
      rcases hj with hj | hj
      · exact Or.inl hj
      · exact Or.inr hj
    have hr := ih ha'.2 hj'
    show hasVerb (c :: d :: (t ++ b)) = false
    simp only [hasVerb, Bool.or_eq_false_iff]
    refine ⟨ha'.1, ?_⟩
    simpa using hr

theorem goSubstS_append (arg p rest : List Char) (u : Bool)
    (hv : hasVerb p = false)
    (hj : p.getLast? ≠ some '%' ∨ rest.head? ≠ some 's') :
    goSubstS arg (p ++ rest) u = p ++ goSubstS arg rest u := by
  induction p using hasVerb.induct generalizing u with
  | case1 => simp
  | case2 c =>
    cases rest with
    | nil => simp [goSubstS]
    | cons r rs =>
      have hcr : c ≠ '%' ∨ r ≠ 's' := by
        rcases hj with hj | hj
        · exact Or.inl fun h => hj (by simp [List.getLast?_singleton, h])
        · exact Or.inr fun h => hj (by simp [h])
      show goSubstS arg (c :: r :: rs) u = c :: goSubstS arg (r :: rs) u
      rcases hcr with h | h <;> simp [goSubstS, h]
  | case3 c d t ih =>
    have ha' : (decide (c = '%') && decide (d = 's')) = false ∧ hasVerb (d :: t) = false := by
      simpa [hasVerb, Bool.or_eq_false_iff] using hv
    have hj' : (d :: t).getLast? ≠ some '%' ∨ rest.head? ≠ some 's' := by
      rcases hj with hj | hj
      · exact Or.inl hj
      · exact Or.inr hj
    have hr := ih ha'.2 hj' (u := u)
    show goSubstS arg (c :: d :: (t ++ rest)) u = (c :: d :: t) ++ goSubstS arg rest u
    simp only [goSubstS, ha'.1, Bool.false_eq_true, if_false]
    rw [show (d :: (t ++ rest)) = ((d :: t) ++ rest) from rfl, hr]
    simp

theorem sprintfS_retrieve_path (c : Connector) (pickupID : String)
    (hb : hasVerb c.baseURL.data = false) :
    sprintfS (getURL c urlResourceCertificateRetrieve) pickupID
      = c.baseURL ++ ("certificaterequests/" ++ (pickupID ++ "/certificate")) := by
  show String.mk (goSubstS pickupID.data (c.baseURL ++ urlResourceCertificateRetrieve).data false) = _
  rw [String.data_append, goSubstS_append _ _ _ _ hb (Or.inr (by decide))]
  rw [show goSubstS pickupID.data urlResourceCertificateRetrieve.data false
        = "certificaterequests/".data ++ (pickupID.data ++ "/certificate".data) from rfl]
  rfl

theorem sprintfS_query (x tok : String) (hx : hasVerb x.data = false) :
    sprintfS (x ++ "?chainOrder=%s&format=PEM") tok
      = x ++ ("?chainOrder=" ++ (tok ++ "&format=PEM")) := by
  show String.mk (goSubstS tok.data (x ++ "?chainOrder=%s&format=PEM").data false) = _
  rw [String.data_append, goSubstS_append _ _ _ _ hx (Or.inr (by decide))]
  rw [show goSubstS tok.data "?chainOrder=%s&format=PEM".data false
        = "?chainOrder=".data ++ (tok.data ++ "&format=PEM".data) from rfl]
  rfl

theorem hasVerb_retrieve_path (c : Connector) (pickupID : String)
    (hb : hasVerb c.baseURL.data = false) (hp : hasVerb pickupID.data = false) :
    hasVerb (c.baseURL ++ ("certificaterequests/" ++ (pickupID ++ "/certificate"))).data = false := by
  rw [String.data_append, String.data_append, String.data_append]
  have h34 : hasVerb (pickupID.data ++ "/certificate".data) = false :=
    hasVerb_append _ _ hp (by decide) (Or.inr (by decide))
  have h234 : hasVerb ("certificaterequests/".data ++ (pickupID.data ++ "/certificate".data)) = false :=
    hasVerb_append _ _ (by decide) h34 (Or.inl (by decide))
  have hh : ("certificaterequests/".data ++ (pickupID.data ++ "/certificate".data)).head? = some 'c' := rfl
  exact hasVerb_append _ _ hb h234 (Or.inr (by rw [hh]; decide))

theorem retrieveIssued_url_eq_spec (c : Connector) (pickupID : String) (co : ChainOptionT)
    (hb : hasVerb c.baseURL.data = false) (hp : hasVerb pickupID.data = false) :
    (match co with
     | ChainOptionT.RootFirst =>
        sprintfS (sprintfS (getURL c urlResourceCertificateRetrieve) pickupID
          ++ "?chainOrder=%s&format=PEM") condorChainOptionRootFirst
     | _ =>
        sprintfS (sprintfS (getURL c urlResourceCertificateRetrieve) pickupID
          ++ "?chainOrder=%s&format=PEM") condorChainOptionRootLast)
      = specRetrieveUrl c pickupID co := by
  have hpath := sprintfS_retrieve_path c pickupID hb
  have hv := hasVerb_retrieve_path c pickupID hb hp
  cases co <;>
    simp only [hpath, specRetrieveUrl] <;>
    rw [sprintfS_query _ _ hv]

theorem pollLoop_trace_pure (pickupID : String) (timeout startTime : Nat)
    (statusFetch : Nat → Except String certificateStatus) :
    ∀ fuel i now e, e ∈ (pollLoop pickupID timeout startTime statusFetch fuel i now).2 →
      e = .statusGet pickupID ∨ e = .sleepSec 2 := by
  intro fuel
  induction fuel with
  | zero => intro i now e h; simp [pollLoop] at h
  | succ f ih =>
    intro i now e h
    rcases hfi : statusFetch i with er | st
    · simp [pollLoop, hfi] at h
      exact Or.inl h
    · simp only [pollLoop, hfi] at h
      split_ifs at h
      · simp at h; exact Or.inl h
      · simp at h; exact Or.inl h
      · simp at h; exact Or.inl h
      · simp at h; exact Or.inl h
      · simp at h
        rcases h with h | h | h
        · exact Or.inl h
        · exact Or.inr h
        · exact ih (i + 1) (now + 2) e h

theorem pollLoop_timedOut_always_pending
    (pickupID : String) (timeout startTime : Nat)
    (statusFetch : Nat → Except String certificateStatus)
    (hok : ∀ j, ∃ st, statusFetch j = .ok st ∧ st.Status ≠ "ISSUED" ∧ st.Status ≠ "FAILED")
    (htime : timeout ≠ 0) :
    ∀ fuel i now, 1 ≤ fuel → startTime + timeout < now + 2 * (fuel - 1) →
      (pollLoop pickupID timeout startTime statusFetch fuel i now).1 = .timedOut pickupID := by
  intro fuel
  induction fuel with
  | zero => intro i now h1 _; exact absurd h1 (by omega)
  | succ f ih =>
    intro i now _ hmargin
    obtain ⟨st, hf, hni, hnf⟩ := hok i
    by_cases hlt : startTime + timeout < now
    · simp [pollLoop, hf, hni, hnf, htime, hlt]
    · have hf1 : 1 ≤ f := by omega
      have hrec := ih (i + 1) (now + 2) hf1 (by omega)
      simp [pollLoop, hf, hni, hnf, htime, hlt, hrec]

theorem scanRequestIds_reqIds (certs : List searchCertificate) :
    ∀ cid acc only, (scanRequestIds certs cid acc only).2.1
      = acc ++ certs.map (fun cert => cert.CertificateRequestId) := by
  induction certs with
  | nil => intro cid acc only; simp [scanRequestIds]
  | cons cert rest ih =>
    intro cid acc only
    simp [scanRequestIds, ih]

theorem scanRequestIds_false (certs : List searchCertificate) :
    ∀ cid acc, (scanRequestIds certs cid acc false).2.2 = false := by
  induction certs with
  | nil => intro cid acc; rfl
  | cons cert rest ih =>
    intro cid acc
    simp [scanRequestIds, ih]

theorem scanRequestIds_all_eq (certs : List searchCertificate) :
    ∀ cid acc, cid ≠ "" → (scanRequestIds certs cid acc true).2.2 = true →
      ∀ cert ∈ certs, cert.CertificateRequestId = cid := by
  induction certs with
  | nil => intro cid acc _ _ cert hc; simp at hc
  | cons c0 rest ih =>
    intro cid acc hcid htrue cert hc
    by_cases heq : cid = c0.CertificateRequestId
    · have hstep : scanRequestIds (c0 :: rest) cid acc true
          = scanRequestIds rest c0.CertificateRequestId (acc ++ [c0.CertificateRequestId]) true := by
        simp [scanRequestIds, heq]
      rcases List.mem_cons.mp hc with hcx | hmem
      · rw [hcx]; exact heq.symm
      · have := ih c0.CertificateRequestId (acc ++ [c0.CertificateRequestId])
          (by rw [← heq]; exact hcid) (by rw [← hstep]; exact htrue) cert hmem
        rw [this, ← heq]
    · exfalso
      have hfalse : (scanRequestIds (c0 :: rest) cid acc true).2.2 = false := by
        simp [scanRequestIds, hcid, heq, scanRequestIds_false]
      rw [htrue] at hfalse
      exact absurd hfalse (by simp)

theorem scan_detects_ambiguity (x : searchCertificate) (t : List searchCertificate)
    (hne : ∀ cert ∈ x :: t, cert.CertificateRequestId ≠ "")
    (hdist : ∃ c1 ∈ x :: t, ∃ c2 ∈ x :: t,
        c1.CertificateRequestId ≠ c2.CertificateRequestId) :
    (resolveCertificateRequestId (x :: t)).2.2 = false := by
  rcases hb : (resolveCertificateRequestId (x :: t)).2.2 with _ | _
  · rfl
  · exfalso
    have hstep : resolveCertificateRequestId (x :: t)
        = scanRequestIds t x.CertificateRequestId [x.CertificateRequestId] true := by
      simp [resolveCertificateRequestId, scanRequestIds]
    rw [hstep] at hb
    have hx : x.CertificateRequestId ≠ "" := hne x (by simp)
    have hall := scanRequestIds_all_eq t x.CertificateRequestId [x.CertificateRequestId] hx hb
    obtain ⟨c1, hc1, c2, hc2, hne'⟩ := hdist
    have e1 : c1.CertificateRequestId = x.CertificateRequestId := by
      rcases List.mem_cons.mp hc1 with h | h
      · rw [h]
      · exact hall c1 h
    have e2 : c2.CertificateRequestId = x.CertificateRequestId := by
      rcases List.mem_cons.mp hc2 with h | h
      · rw [h]
      · exact hall c2 h
    exact hne' (e1.trans e2.symm)

theorem getPoliciesByIDLoop_ok (fetch : String → Except String certificatePolicy) :
    ∀ (ids : List String) (acc : certificatePolicy),
      (∀ pid ∈ ids, ∃ p, fetch pid = .ok p) →
      getPoliciesByIDLoop fetch ids acc
        = .ok (List.foldl mergePolicyFragment acc
            (ids.filterMap fun pid => (fetch pid).toOption)) := by
  intro ids
  induction ids with
  | nil => intro acc _; rfl
  | cons pid rest ih =>
    intro acc hall
    obtain ⟨p, hp⟩ := hall pid (by simp)
    have hrest : ∀ q ∈ rest, ∃ p, fetch q = .ok p := fun q hq => hall q (by simp [hq])
    simp [getPoliciesByIDLoop, hp, List.filterMap_cons, Except.toOption, ih _ hrest]

theorem getPoliciesByIDLoop_error (fetch : String → Except String certificatePolicy) :
    ∀ (pre : List String) (pid : String) (post : List String) (e : String)
      (acc : certificatePolicy),
      (∀ q ∈ pre, ∃ p, fetch q = .ok p) → fetch pid = .error e →
      getPoliciesByIDLoop fetch (pre ++ pid :: post) acc = .error e := by
  intro pre
  induction pre with
  | nil => intro pid post e acc _ he; simp [getPoliciesByIDLoop, he]
  | cons q pre' ih =>
    intro pid post e acc hall he
    obtain ⟨p, hp⟩ := hall q (by simp)
    simp [getPoliciesByIDLoop, hp]
    exact ih _ _ _ _ (fun r hr => hall r (by simp [hr])) he

theorem foldl_mergePolicyFragment (ps : List certificatePolicy) :
    ∀ acc, List.foldl mergePolicyFragment acc ps =
      { CertificatePolicyType := acc.CertificatePolicyType
        SubjectCNRegexes :=
          match specLastIdentity ps with
          | some q => q.SubjectCNRegexes
          | none => acc.SubjectCNRegexes
        SubjectORegexes :=
          match specLastIdentity ps with
          | some q => q.SubjectORegexes
          | none => acc.SubjectORegexes
        SubjectOURegexes :=
          match specLastIdentity ps with
          | some q => q.SubjectOURegexes
          | none => acc.SubjectOURegexes
        SubjectSTRegexes :=
          match specLastIdentity ps with
          | some q => q.SubjectSTRegexes
          | none => acc.SubjectSTRegexes
        SubjectLRegexes :=
          match specLastIdentity ps with
          | some q => q.SubjectLRegexes
          | none => acc.SubjectLRegexes
        SubjectCRegexes :=
          match specLastIdentity ps with
          | some q => q.SubjectCRegexes
          | none => acc.SubjectCRegexes
        SANRegexes :=
          match specLastIdentity ps with
          | some q => q.SANRegexes
          | none => acc.SANRegexes
        KeyTypes :=
          match specLastUse ps with
          | some q => q.KeyTypes
          | none => acc.KeyTypes
        KeyReuse :=
          match specLastUse ps with
          | some q => q.KeyReuse
          | none => acc.KeyReuse } := by
  induction ps with
  | nil => intro acc; simp [specLastIdentity, specLastUse]
  | cons p t ih =>
    intro acc
    rw [List.foldl_cons, ih]
    rcases hI : specLastIdentity t with _ | q <;> rcases hU : specLastUse t with _ | r <;>
      rcases hk : p.CertificatePolicyType with _ | _ | s <;>
        simp [specLastIdentity, specLastUse, mergePolicyFragment, hI, hU, hk,
          isIdentityFragment, isUseFragment]

/-- C1: in every poll iteration of `RetrieveCertificate` whose fetched
status is REQUESTED or PENDING: with a zero caller-supplied timeout the
iteration returns the certificate-pending error at once (its trace is the
single status fetch — no sleep, no retrieval call); with a nonzero timeout
and elapsed wall time exceeding the timeout it returns the
retrieve-timeout error (again a single status fetch, and at the operation
level no retrieval call is ever made); otherwise the iteration sleeps the
fixed 2-second interval and re-fetches the status with the next poll
index. -/
theorem C1_pending_zero_timeout_and_deadline :
    (∀ (pickupID : String) (timeout startTime fuel i now : Nat)
       (statusFetch : Nat → Except String certificateStatus) (st : certificateStatus),
       statusFetch i = .ok st →
       (st.Status = "REQUESTED" ∨ st.Status = "PENDING") →
       timeout = 0 →
       pollLoop pickupID timeout startTime statusFetch (fuel + 1) i now
         = (.pending pickupID st.Status, [.statusGet pickupID]))
  ∧ (∀ (pickupID : String) (timeout startTime fuel i now : Nat)
       (statusFetch : Nat → Except String certificateStatus) (st : certificateStatus),
       statusFetch i = .ok st →
       (st.Status = "REQUESTED" ∨ st.Status = "PENDING") →
       timeout ≠ 0 → startTime + timeout < now →
       pollLoop pickupID timeout startTime statusFetch (fuel + 1) i now
         = (.timedOut pickupID, [.statusGet pickupID]))
  ∧ (∀ (pickupID : String) (timeout startTime fuel i now : Nat)
       (statusFetch : Nat → Except String certificateStatus) (st : certificateStatus),
       statusFetch i = .ok st →
       (st.Status = "REQUESTED" ∨ st.Status = "PENDING") →
       timeout ≠ 0 → ¬ startTime + timeout < now →
       pollLoop pickupID timeout startTime statusFetch (fuel + 1) i now
         = ((pollLoop pickupID timeout startTime statusFetch fuel (i + 1) (now + 2)).1,
            .statusGet pickupID :: .sleepSec 2 ::
              (pollLoop pickupID timeout startTime statusFetch fuel (i + 1) (now + 2)).2))
  ∧ (∀ (π : Type) (c : Connector) (req : Request)
       (doSearch : SearchRequest → Except String CertificateSearchResponse)
       (statusFetch : Nat → Except String certificateStatus)
       (doRetrieve : String → Except String (Nat × String × String))
       (parsePEM : String → ChainOptionT → Except String π)
       (fuel startTime : Nat) (st : certificateStatus),
       req.FetchPrivateKey = false →
       ¬(req.PickupID = "" ∧ req.Thumbprint ≠ "") →
       statusFetch 0 = .ok st →
       (st.Status = "REQUESTED" ∨ st.Status = "PENDING") →
       req.Timeout = 0 →
       RetrieveCertificate c req doSearch statusFetch doRetrieve parsePEM (fuel + 1) startTime
         = (.error (.certificatePendingErr req.PickupID st.Status), [.statusGet req.PickupID]))
  ∧ (∀ (π : Type) (c : Connector) (req : Request)
       (doSearch : SearchRequest → Except String CertificateSearchResponse)
       (statusFetch : Nat → Except String certificateStatus)
       (doRetrieve : String → Except String (Nat × String × String))
       (parsePEM : String → ChainOptionT → Except String π)
       (fuel startTime : Nat),
       req.FetchPrivateKey = false →
       ¬(req.PickupID = "" ∧ req.Thumbprint ≠ "") →
       (∀ j, ∃ st, statusFetch j = .ok st ∧
          (st.Status = "REQUESTED" ∨ st.Status = "PENDING")) →
       req.Timeout ≠ 0 → 1 ≤ fuel → req.Timeout < 2 * (fuel - 1) →
       (RetrieveCertificate c req doSearch statusFetch doRetrieve parsePEM fuel startTime).1
           = .error (.retrieveTimeoutErr req.PickupID)
         ∧ ∀ u, Event.certRetrieve u ∉
             (RetrieveCertificate c req doSearch statusFetch doRetrieve parsePEM fuel startTime).2) := by
  refine ⟨?_, ?_, ?_, ?_, ?_⟩
  · intro pickupID timeout startTime fuel i now statusFetch st hf hp hT
    rcases hp with h | h <;> simp [pollLoop, hf, h, hT]
  · intro pickupID timeout startTime fuel i now statusFetch st hf hp hT hlt
    rcases hp with h | h <;> simp [pollLoop, hf, h, hT, hlt]
  · intro pickupID timeout startTime fuel i now statusFetch st hf hp hT hlt
    rcases hp with h | h <;> simp [pollLoop, hf, h, hT, hlt]
  · intro π c req doSearch statusFetch doRetrieve parsePEM fuel startTime st hpk hskip hf0 hp hT0
    have hpr : pollLoop req.PickupID req.Timeout startTime statusFetch (fuel + 1) 0 startTime
        = (.pending req.PickupID st.Status, [.statusGet req.PickupID]) := by
      rcases hp with h | h <;> simp [pollLoop, hf0, h, hT0]
    simp [RetrieveCertificate, hpk, hskip, hpr]
  · intro π c req doSearch statusFetch doRetrieve parsePEM fuel startTime hpk hskip hok hT hfuel hmargin
    have hok' : ∀ j, ∃ st, statusFetch j = .ok st ∧
        st.Status ≠ "ISSUED" ∧ st.Status ≠ "FAILED" := by
      intro j
      obtain ⟨st, hst, hp⟩ := hok j
      exact ⟨st, hst, by rcases hp with h | h <;> simp [h]⟩
    have hpoll := pollLoop_timedOut_always_pending req.PickupID req.Timeout startTime
      statusFetch hok' hT fuel 0 startTime hfuel (by omega)
    constructor
    · simp [RetrieveCertificate, hpk, hskip, hpoll]
    · intro u hu
      have hmem : Event.certRetrieve u ∈
          (pollLoop req.PickupID req.Timeout startTime statusFetch fuel 0 startTime).2 := by
        simpa [RetrieveCertificate, hpk, hskip, hpoll] using hu
      rcases pollLoop_trace_pure req.PickupID req.Timeout startTime statusFetch
        fuel 0 startTime (Event.certRetrieve u) hmem with h | h <;> exact Event.noConfusion h

theorem C1_witness :
    pollLoop "R1" 0 7 (fun _ => .ok ⟨"PENDING", "", ""⟩) 3 0 7
      = (.pending "R1" "PENDING", [.statusGet "R1"]) :=
  C1_pending_zero_timeout_and_deadline.1 "R1" 0 7 2 0 7
    (fun _ => .ok ⟨"PENDING", "", ""⟩) ⟨"PENDING", "", ""⟩ rfl (Or.inr rfl) rfl

/-- C2: in every poll iteration of `RetrieveCertificate` whose fetched
status is FAILED, the loop returns the issuance-failed error carrying that
status immediately — the iteration's trace is the single status fetch
(no sleep, no further poll), and at the operation level the full trace
also contains no retrieval call. -/
theorem C2_failed_status_terminal :
    (∀ (pickupID : String) (timeout startTime fuel i now : Nat)
       (statusFetch : Nat → Except String certificateStatus) (st : certificateStatus),
       statusFetch i = .ok st → st.Status = "FAILED" →
       pollLoop pickupID timeout startTime statusFetch (fuel + 1) i now
         = (.issuanceFailed st, [.statusGet pickupID]))
  ∧ (∀ (π : Type) (c : Connector) (req : Request)
       (doSearch : SearchRequest → Except String CertificateSearchResponse)
       (statusFetch : Nat → Except String certificateStatus)
       (doRetrieve : String → Except String (Nat × String × String))
       (parsePEM : String → ChainOptionT → Except String π)
       (fuel startTime : Nat) (st : certificateStatus),
       req.FetchPrivateKey = false →
       ¬(req.PickupID = "" ∧ req.Thumbprint ≠ "") →
       statusFetch 0 = .ok st → st.Status = "FAILED" →
       RetrieveCertificate c req doSearch statusFetch doRetrieve parsePEM (fuel + 1) startTime
         = (.error (.failedStatus st), [.statusGet req.PickupID])) := by
  constructor
  · intro pickupID timeout startTime fuel i now statusFetch st hf hst
    simp [pollLoop, hf, hst]
  · intro π c req doSearch statusFetch doRetrieve parsePEM fuel startTime st hpk hskip hf0 hst
    have hpr : pollLoop req.PickupID req.Timeout startTime statusFetch (fuel + 1) 0 startTime
        = (.issuanceFailed st, [.statusGet req.PickupID]) := by
      simp [pollLoop, hf0, hst]
    simp [RetrieveCertificate, hpk, hskip, hpr]

theorem C2_witness :
    pollLoop "R1" 30 7 (fun _ => .ok ⟨"FAILED", "z", "m"⟩) 4 1 9
      = (.issuanceFailed ⟨"FAILED", "z", "m"⟩, [.statusGet "R1"]) :=
  C2_failed_status_terminal.1 "R1" 30 7 3 1 9
    (fun _ => .ok ⟨"FAILED", "z", "m"⟩) ⟨"FAILED", "z", "m"⟩ rfl rfl

/-- C3: when the resolved prior request identifier differs from the
managed-certificate record's latest-request-id, `RenewCertificate` returns
the stale-target error naming the request id, the managed-certificate id
and the latest request id, and its event trace contains no POST of a new
certificate request.  Both resolution paths are covered: an explicit
`CertificateDN`, and a fingerprint search returning a single certificate. -/
theorem C3_stale_renewal_target :
    (∀ (c : Connector) (renewReq : RenewalRequest)
       (doSearch : SearchRequest → Except String CertificateSearchResponse)
       (statusFetchById : String → Except String certificateStatus)
       (managedFetch : String → Except String managedCertificate)
       (post : certificateRequest → Except String (Nat × String × String))
       (parseCR : Nat → String → String → Except String certificateRequestResult)
       (R : String) (prev : certificateStatus) (m : managedCertificate),
       renewReq.Thumbprint = "" → renewReq.CertificateDN = R → R ≠ "" →
       statusFetchById R = .ok prev →
       prev.ManagedCertificateId ≠ "" → prev.ZoneId ≠ "" →
       managedFetch prev.ManagedCertificateId = .ok m →
       m.LatestCertificateRequestId ≠ R →
       RenewCertificate c renewReq doSearch statusFetchById managedFetch post parseCR
         = (.err (.notLatestRequest R prev.ManagedCertificateId
              m.LatestCertificateRequestId ""),
            [.statusGet R, .managedCertGet prev.ManagedCertificateId]))
  ∧ (∀ (c : Connector) (renewReq : RenewalRequest)
       (doSearch : SearchRequest → Except String CertificateSearchResponse)
       (statusFetchById : String → Except String certificateStatus)
       (managedFetch : String → Except String managedCertificate)
       (post : certificateRequest → Except String (Nat × String × String))
       (parseCR : Nat → String → String → Except String certificateRequestResult)
       (R : String) (prev : certificateStatus) (m : managedCertificate),
       renewReq.Thumbprint ≠ "" →
       doSearch (searchCertificatesByFingerprintRequest renewReq.Thumbprint)
         = .ok { Certificates := [{ CertificateRequestId := R }] } →
       statusFetchById R = .ok prev →
       prev.ManagedCertificateId ≠ "" → prev.ZoneId ≠ "" →
       managedFetch prev.ManagedCertificateId = .ok m →
       m.LatestCertificateRequestId ≠ R →
       RenewCertificate c renewReq doSearch statusFetchById managedFetch post parseCR
         = (.err (.notLatestRequest R prev.ManagedCertificateId
              m.LatestCertificateRequestId renewReq.Thumbprint),
            [.searchCert (searchCertificatesByFingerprintRequest renewReq.Thumbprint),
             .statusGet R, .managedCertGet prev.ManagedCertificateId])) := by
  constructor
  · intro c renewReq doSearch statusFetchById managedFetch post parseCR R prev m
      hThumb hDN hR hprev hmc hzone hm hne
    simp [RenewCertificate, hThumb, hDN, hR, hprev, hmc, hzone, hm, hne]
  · intro c renewReq doSearch statusFetchById managedFetch post parseCR R prev m
      hThumb hsr hprev hmc hzone hm hne
    simp [RenewCertificate, hThumb, hsr, hprev, hmc, hzone, hm, hne,
      resolveCertificateRequestId, scanRequestIds]

theorem C3_witness :
    RenewCertificate
      { baseURL := "", apiKey := "", user := some { Company := some () }, zone := "" }
      { Thumbprint := "", CertificateDN := "R1", CertificateRequest := none }
      (fun _ => .error "unused") (fun _ => .ok ⟨"ISSUED", "Z1", "M1"⟩)
      (fun _ => .ok { Id := "M1", CompanyId := "", LatestCertificateRequestId := "R2",
                      CertificateName := "" })
      (fun _ => .error "unused") (fun _ _ _ => .error "unused")
      = (.err (.notLatestRequest "R1" "M1" "R2" ""), [.statusGet "R1", .managedCertGet "M1"]) :=
  C3_stale_renewal_target.1 _ _ _ _ _ _ _ "R1" ⟨"ISSUED", "Z1", "M1"⟩
    { Id := "M1", CompanyId := "", LatestCertificateRequestId := "R2", CertificateName := "" }
    rfl rfl (by decide) rfl (by decide) (by decide) rfl (by decide)

/-- C4 (amended): in `RetrieveCertificate` and `RenewCertificate`, a
fingerprint search returning zero certificates fails with the not-found
error for that fingerprint; and when the returned certificates all carry a
non-empty certificate-request identifier and map to more than one distinct
identifier, the operation fails with the ambiguity error listing every
returned certificate's request id and performs nothing further. -/
theorem C4_fingerprint_resolution :
    (∀ (π : Type) (c : Connector) (req : Request)
       (doSearch : SearchRequest → Except String CertificateSearchResponse)
       (statusFetch : Nat → Except String certificateStatus)
       (doRetrieve : String → Except String (Nat × String × String))
       (parsePEM : String → ChainOptionT → Except String π) (fuel startTime : Nat),
       req.FetchPrivateKey = false → req.PickupID = "" → req.Thumbprint ≠ "" →
       doSearch (searchCertificatesByFingerprintRequest req.Thumbprint)
         = .ok { Certificates := [] } →
       RetrieveCertificate c req doSearch statusFetch doRetrieve parsePEM fuel startTime
         = (.error (.noCertFoundByFingerprint req.Thumbprint),
            [.searchCert (searchCertificatesByFingerprintRequest req.Thumbprint)]))
  ∧ (∀ (c : Connector) (renewReq : RenewalRequest)
       (doSearch : SearchRequest → Except String CertificateSearchResponse)
       (statusFetchById : String → Except String certificateStatus)
       (managedFetch : String → Except String managedCertificate)
       (post : certificateRequest → Except String (Nat × String × String))
       (parseCR : Nat → String → String → Except String certificateRequestResult),
       renewReq.Thumbprint ≠ "" →
       doSearch (searchCertificatesByFingerprintRequest renewReq.Thumbprint)
         = .ok { Certificates := [] } →
       RenewCertificate c renewReq doSearch statusFetchById managedFetch post parseCR
         = (.err (.noCertFoundByFingerprint renewReq.Thumbprint),
            [.searchCert (searchCertificatesByFingerprintRequest renewReq.Thumbprint)]))
  ∧ (∀ (π : Type) (c : Connector) (req : Request)
       (doSearch : SearchRequest → Except String CertificateSearchResponse)
       (statusFetch : Nat → Except String certificateStatus)
       (doRetrieve : String → Except String (Nat × String × String))
       (parsePEM : String → ChainOptionT → Except String π) (fuel startTime : Nat)
       (sr : CertificateSearchResponse),
       req.FetchPrivateKey = false → req.PickupID = "" → req.Thumbprint ≠ "" →
       doSearch (searchCertificatesByFingerprintRequest req.Thumbprint) = .ok sr →
       (∀ cert ∈ sr.Certificates, cert.CertificateRequestId ≠ "") →
       (∃ c1 ∈ sr.Certificates, ∃ c2 ∈ sr.Certificates,
          c1.CertificateRequestId ≠ c2.CertificateRequestId) →
       RetrieveCertificate c req doSearch statusFetch doRetrieve parsePEM fuel startTime
         = (.error (.moreThanOneRequestId
              (sr.Certificates.map fun cert => cert.CertificateRequestId)),
            [.searchCert (searchCertificatesByFingerprintRequest req.Thumbprint)]))
  ∧ (∀ (c : Connector) (renewReq : RenewalRequest)
       (doSearch : SearchRequest → Except String CertificateSearchResponse)
       (statusFetchById : String → Except String certificateStatus)
       (managedFetch : String → Except String managedCertificate)
       (post : certificateRequest → Except String (Nat × String × String))
       (parseCR : Nat → String → String → Except String certificateRequestResult)
       (sr : CertificateSearchResponse),
       renewReq.Thumbprint ≠ "" →
       doSearch (searchCertificatesByFingerprintRequest renewReq.Thumbprint) = .ok sr →
       (∀ cert ∈ sr.Certificates, cert.CertificateRequestId ≠ "") →
       (∃ c1 ∈ sr.Certificates, ∃ c2 ∈ sr.Certificates,
          c1.CertificateRequestId ≠ c2.CertificateRequestId) →
       RenewCertificate c renewReq doSearch statusFetchById managedFetch post parseCR
         = (.err (.renewMoreThanOneRequestId
              (sr.Certificates.map fun cert => cert.CertificateRequestId)),
            [.searchCert (searchCertificatesByFingerprintRequest renewReq.Thumbprint)])) := by
  refine ⟨?_, ?_, ?_, ?_⟩
  · intro π c req doSearch statusFetch doRetrieve parsePEM fuel startTime hpk hpid hthumb hsr
    simp [RetrieveCertificate, hpk, hpid, hthumb, hsr]
  · intro c renewReq doSearch statusFetchById managedFetch post parseCR hthumb hsr
    simp [RenewCertificate, hthumb, hsr]
  · intro π c req doSearch statusFetch doRetrieve parsePEM fuel startTime sr
      hpk hpid hthumb hsr hids hdist
    obtain ⟨c1, hc1, c2, hc2, hneq⟩ := hdist
    rcases hC : sr.Certificates with _ | ⟨x, t⟩
    · rw [hC] at hc1; simp at hc1
    · have hids' : ∀ cert ∈ x :: t, cert.CertificateRequestId ≠ "" := by
        rw [← hC]; exact hids
      have hdist' : ∃ a ∈ x :: t, ∃ b ∈ x :: t,
          a.CertificateRequestId ≠ b.CertificateRequestId := by
        rw [← hC]; exact ⟨c1, hc1, c2, hc2, hneq⟩
      have hscan : (scanRequestIds (x :: t) "" [] true).2.2 = false :=
        scan_detects_ambiguity x t hids' hdist'
      have hmap := scanRequestIds_reqIds (x :: t) "" [] true
      simp [RetrieveCertificate, hpk, hpid, hthumb, hsr, hC, hscan,
        resolveCertificateRequestId, hmap]
  · intro c renewReq doSearch statusFetchById managedFetch post parseCR sr
      hthumb hsr hids hdist
    obtain ⟨c1, hc1, c2, hc2, hneq⟩ := hdist
    rcases hC : sr.Certificates with _ | ⟨x, t⟩
    · rw [hC] at hc1; simp at hc1
    · have hids' : ∀ cert ∈ x :: t, cert.CertificateRequestId ≠ "" := by
        rw [← hC]; exact hids
      have hdist' : ∃ a ∈ x :: t, ∃ b ∈ x :: t,
          a.CertificateRequestId ≠ b.CertificateRequestId := by
        rw [← hC]; exact ⟨c1, hc1, c2, hc2, hneq⟩
      have hscan : (scanRequestIds (x :: t) "" [] true).2.2 = false :=
        scan_detects_ambiguity x t hids' hdist'
      have hmap := scanRequestIds_reqIds (x :: t) "" [] true
      simp [RenewCertificate, hthumb, hsr, hC, hscan,
        resolveCertificateRequestId, hmap]

theorem C4_witness :
    RetrieveCertificate (π := String)
      { baseURL := "", apiKey := "", user := some { Company := some () }, zone := "" }
      { CsrOrigin := .UserProvided, CSR := "", FetchPrivateKey := false, PickupID := "",
        Thumbprint := "AA", Timeout := 0, ChainOption := .RootLast }
      (fun _ => .ok { Certificates := [] }) (fun _ => .error "unused")
      (fun _ => .error "unused") (fun _ _ => .error "unused") 1 0
      = (.error (.noCertFoundByFingerprint "AA"),
         [.searchCert (searchCertificatesByFingerprintRequest "AA")]) :=
  C4_fingerprint_resolution.1 String _ _ _ _ _ _ 1 0 rfl rfl (by decide) rfl

/-- C4, counterexample to the claim as stated: a search result whose two
certificates carry the distinct request ids `""` and `"A"` does not make
`RetrieveCertificate` fail with the ambiguity error — the scan at
connector.go:231-239 only compares against a non-empty previous id, so the
operation silently picks `"A"` and proceeds (here to the pending error for
picked id `"A"`). -/
theorem C4_counterexample :
    (∃ c1 ∈ ({ Certificates := [{ CertificateRequestId := "" },
                                { CertificateRequestId := "A" }] }
          : CertificateSearchResponse).Certificates,
       ∃ c2 ∈ ({ Certificates := [{ CertificateRequestId := "" },
                                  { CertificateRequestId := "A" }] }
          : CertificateSearchResponse).Certificates,
       c1.CertificateRequestId ≠ c2.CertificateRequestId)
    ∧ RetrieveCertificate (π := String)
        { baseURL := "", apiKey := "", user := some { Company := some () }, zone := "" }
        { CsrOrigin := .UserProvided, CSR := "", FetchPrivateKey := false, PickupID := "",
          Thumbprint := "AA", Timeout := 0, ChainOption := .RootLast }
        (fun _ => .ok { Certificates := [{ CertificateRequestId := "" },
                                         { CertificateRequestId := "A" }] })
        (fun _ => .ok ⟨"PENDING", "", ""⟩) (fun _ => .error "unused")
        (fun _ _ => .error "unused") 1 0
      = (.error (.certificatePendingErr "A" "PENDING"),
         [.searchCert (searchCertificatesByFingerprintRequest "AA"), .statusGet "A"]) := by
  constructor
  · exact ⟨{ CertificateRequestId := "" }, by decide, { CertificateRequestId := "A" },
      by decide, by decide⟩
  · rfl

theorem searchRequest_eq_specNormalize (fp : String) :
    searchCertificatesByFingerprintRequest fp
      = { Expression := some { Operands :=
            [{ field := "fingerprint", operator := MATCH,
               value := specNormalizeFingerprint fp }] } } := rfl

/-- C5: two fingerprint strings that agree after deleting every colon and
every dot and upper-casing build the identical search request in
`searchCertificatesByFingerprint`, hence the same search is issued and the
same request id is resolved. -/
theorem C5_normalized_fingerprints_same_request :
    ∀ (f1 f2 : String)
      (doSearch : SearchRequest → Except String CertificateSearchResponse),
      specNormalizeFingerprint f1 = specNormalizeFingerprint f2 →
      searchCertificatesByFingerprintRequest f1 = searchCertificatesByFingerprintRequest f2
      ∧ doSearch (searchCertificatesByFingerprintRequest f1)
          = doSearch (searchCertificatesByFingerprintRequest f2) := by
  intro f1 f2 doSearch h
  have hreq : searchCertificatesByFingerprintRequest f1
      = searchCertificatesByFingerprintRequest f2 := by
    rw [searchRequest_eq_specNormalize, searchRequest_eq_specNormalize, h]
  exact ⟨hreq, by rw [hreq]⟩

theorem C5_witness :
    searchCertificatesByFingerprintRequest "ab:cd.ef"
      = searchCertificatesByFingerprintRequest "AB.CD:EF" :=
  (C5_normalized_fingerprints_same_request "ab:cd.ef" "AB.CD:EF"
    (fun _ => .ok { Certificates := [] }) (by decide)).1

/-- C6: the merged policy of `getPoliciesByID` takes its subject/SAN regex
sets from identity-type fragments only, its key types and key-reuse flag
from use-type fragments only, ignores fragments of any other type, leaves
fields contributed by neither fragment kind empty (`specMergedPolicy`
spells this out), and if fetching or parsing any fragment fails the whole
merge is discarded and that first error returned. -/
theorem C6_policy_merge (c : Connector) (u : userDetails) (hc : c.user = some u)
    (fetch : String → Except String certificatePolicy) (ids : List String) :
    ((∀ pid ∈ ids, ∃ p, fetch pid = .ok p) →
       getPoliciesByID c fetch ids
         = .ok (specMergedPolicy (ids.filterMap fun pid => (fetch pid).toOption)))
  ∧ (∀ (pre : List String) (pid : String) (post : List String) (e : String),
       ids = pre ++ pid :: post →
       (∀ q ∈ pre, ∃ p, fetch q = .ok p) → fetch pid = .error e →
       getPoliciesByID c fetch ids = .error e) := by
  constructor
  · intro hall
    have h1 := getPoliciesByIDLoop_ok fetch ids emptyCertificatePolicy hall
    have h2 := foldl_mergePolicyFragment (ids.filterMap fun pid => (fetch pid).toOption)
      emptyCertificatePolicy
    rw [getPoliciesByID, if_neg (by simp [hc]), h1, h2]
    rfl
  · intro pre pid post e hids hpre he
    rw [getPoliciesByID, if_neg (by simp [hc]), hids]
    exact getPoliciesByIDLoop_error fetch pre pid post e emptyCertificatePolicy hpre he

theorem C6_witness :
    getPoliciesByID
      { baseURL := "", apiKey := "", user := some { Company := some () }, zone := "" }
      (fun _ => .error "policy fetch failed") ["p1"]
      = .error "policy fetch failed" :=
  (C6_policy_merge _ { Company := some () } rfl
    (fun _ => .error "policy fetch failed") ["p1"]).2 [] "p1" [] "policy fetch failed"
    rfl (by simp) rfl

/-- C7: once the poll loop observes ISSUED, `RetrieveCertificate` makes
one retrieval call whose URL is the by-id retrieval path carrying
`chainOrder=ROOT_FIRST` when the caller asked root-first ordering and
`chainOrder=EE_FIRST` otherwise, plus `format=PEM`; a 200 response is
handed to the PEM parser together with the caller's ordering choice, 409
yields the certificate-pending error (not retried internally), and any
other status yields the retrieval-failed error carrying status code and
status text. -/
theorem C7_retrieval_dispatch (π : Type) (c : Connector) (pickupID : String)
    (co : ChainOptionT)
    (doRetrieve : String → Except String (Nat × String × String))
    (parsePEM : String → ChainOptionT → Except String π) (u : userDetails)
    (hu : c.user = some u) (hcomp : u.Company = some ())
    (hb : hasVerb c.baseURL.data = false) (hp : hasVerb pickupID.data = false) :
    (condorChainOptionRootFirst = "ROOT_FIRST" ∧ condorChainOptionRootLast = "EE_FIRST")
  ∧ (∀ (code : Nat) (status body : String),
       doRetrieve (specRetrieveUrl c pickupID co) = .ok (code, status, body) →
       (code = 200 →
          retrieveIssued c pickupID co doRetrieve parsePEM
            = (match parsePEM body co with
               | .ok p => (.ok p, [.certRetrieve (specRetrieveUrl c pickupID co)])
               | .error e =>
                 (.error (.collab e), [.certRetrieve (specRetrieveUrl c pickupID co)])))
       ∧ (code = 409 →
          retrieveIssued c pickupID co doRetrieve parsePEM
            = (.error (.certificatePendingErr pickupID ""),
               [.certRetrieve (specRetrieveUrl c pickupID co)]))
       ∧ (code ≠ 200 → code ≠ 409 →
          retrieveIssued c pickupID co doRetrieve parsePEM
            = (.error (.retrievalFailed code status body),
               [.certRetrieve (specRetrieveUrl c pickupID co)])))
  ∧ (∀ e, doRetrieve (specRetrieveUrl c pickupID co) = .error e →
       retrieveIssued c pickupID co doRetrieve parsePEM
         = (.error (.collab e), [.certRetrieve (specRetrieveUrl c pickupID co)]))
  ∧ (∀ (req : Request)
       (doSearch : SearchRequest → Except String CertificateSearchResponse)
       (statusFetch : Nat → Except String certificateStatus)
       (fuel startTime : Nat) (st : certificateStatus),
       req.FetchPrivateKey = false → ¬(req.PickupID = "" ∧ req.Thumbprint ≠ "") →
       req.PickupID = pickupID → req.ChainOption = co →
       statusFetch 0 = .ok st → st.Status = "ISSUED" →
       RetrieveCertificate c req doSearch statusFetch doRetrieve parsePEM (fuel + 1) startTime
         = ((retrieveIssued c pickupID co doRetrieve parsePEM).1,
            .statusGet pickupID :: (retrieveIssued c pickupID co doRetrieve parsePEM).2)) := by
  have hna : connectorNotAuthed c = false := by simp [connectorNotAuthed, hu, hcomp]
  have hurl := retrieveIssued_url_eq_spec c pickupID co hb hp
  have hunf : retrieveIssued c pickupID co doRetrieve parsePEM
      = (match doRetrieve (specRetrieveUrl c pickupID co) with
         | .error e =>
           ((.error (.collab e) : Except CloudErr π),
            [Event.certRetrieve (specRetrieveUrl c pickupID co)])
         | .ok (statusCode, status, body) =>
           if statusCode = 200 then
             match parsePEM body co with
             | .ok p => (.ok p, [Event.certRetrieve (specRetrieveUrl c pickupID co)])
             | .error e =>
               (.error (.collab e), [Event.certRetrieve (specRetrieveUrl c pickupID co)])
           else if statusCode = 409 then
             (.error (.certificatePendingErr pickupID ""),
              [Event.certRetrieve (specRetrieveUrl c pickupID co)])
           else
             (.error (.retrievalFailed statusCode status body),
              [Event.certRetrieve (specRetrieveUrl c pickupID co)])) := by
    simp only [retrieveIssued, hna, Bool.false_eq_true, if_false]
    rw [hurl]
  refine ⟨⟨rfl, rfl⟩, ?_, ?_, ?_⟩
  · intro code status body hresp
    refine ⟨?_, ?_, ?_⟩
    · intro h200
      subst h200
      rw [hunf, hresp]
      simp
    · intro h409
      subst h409
      rw [hunf, hresp]
      simp
    · intro h200 h409
      rw [hunf, hresp]
      simp [h200, h409]
  · intro e hresp
    rw [hunf, hresp]
  · intro req doSearch statusFetch fuel startTime st hpk hskip hpid hco hf0 hst
    subst hpid
    subst hco
    have hpr : pollLoop req.PickupID req.Timeout startTime statusFetch (fuel + 1) 0 startTime
        = (.issued, [.statusGet req.PickupID]) := by
      simp [pollLoop, hf0, hst]
    simp [RetrieveCertificate, hpk, hskip, hpr]

theorem C7_witness :
    retrieveIssued (π := String)
      { baseURL := "", apiKey := "", user := some { Company := some () }, zone := "" }
      "id1" .RootFirst (fun _ => .ok (404, "Not Found", "nope"))
      (fun _ _ => .error "unused")
      = (.error (.retrievalFailed 404 "Not Found" "nope"),
         [.certRetrieve (specRetrieveUrl
            { baseURL := "", apiKey := "", user := some { Company := some () }, zone := "" }
            "id1" .RootFirst)]) :=
  (((C7_retrieval_dispatch String
      { baseURL := "", apiKey := "", user := some { Company := some () }, zone := "" }
      "id1" .RootFirst (fun _ => .ok (404, "Not Found", "nope")) (fun _ _ => .error "unused")
      { Company := some () } rfl rfl (by decide) (by decide)).2.1
        404 "Not Found" "nope" rfl).2.2 (by decide) (by decide))

/-- C8: `RequestCertificate` with an empty zone argument behaves exactly
as with the connector-level default zone; a service-generated CSR origin
fails with the unsupported error before any network call (empty event
trace); a connector without a resolved authenticated identity fails with
the not-authenticated error, again before any network call. -/
theorem C8_submit_guards :
    (∀ (c : Connector) (req : Request)
       (zoneFetch : String → Except String zone)
       (post : certificateRequest → Except String (Nat × String × String))
       (parseCR : Nat → String → String → Except String certificateRequestResult),
       RequestCertificate c req "" zoneFetch post parseCR
         = RequestCertificate c req c.zone zoneFetch post parseCR)
  ∧ (∀ (c : Connector) (req : Request) (zoneArg : String)
       (zoneFetch : String → Except String zone)
       (post : certificateRequest → Except String (Nat × String × String))
       (parseCR : Nat → String → String → Except String certificateRequestResult),
       req.CsrOrigin = .ServiceGenerated →
       RequestCertificate c req zoneArg zoneFetch post parseCR
         = (.err .serviceCSRNotSupported, []))
  ∧ (∀ (c : Connector) (req : Request) (zoneArg : String)
       (zoneFetch : String → Except String zone)
       (post : certificateRequest → Except String (Nat × String × String))
       (parseCR : Nat → String → String → Except String certificateRequestResult),
       req.CsrOrigin ≠ .ServiceGenerated → connectorNotAuthed c = true →
       RequestCertificate c req zoneArg zoneFetch post parseCR
         = (.err (.mustAuthenticate "request a certificate"), [])) := by
  refine ⟨?_, ?_, ?_⟩
  · intro c req zoneFetch post parseCR
    simp [RequestCertificate]
  · intro c req zoneArg zoneFetch post parseCR h
    simp [RequestCertificate, h]
  · intro c req zoneArg zoneFetch post parseCR h1 h2
    simp [RequestCertificate, h1, h2]

theorem C8_witness :
    RequestCertificate
      { baseURL := "", apiKey := "", user := none, zone := "Z" }
      { CsrOrigin := .ServiceGenerated, CSR := "", FetchPrivateKey := false, PickupID := "",
        Thumbprint := "", Timeout := 0, ChainOption := .RootLast }
      "zone1" (fun _ => .error "unused") (fun _ => .error "unused")
      (fun _ _ _ => .error "unused")
      = (.err .serviceCSRNotSupported, []) :=
  C8_submit_guards.2.1 _ _ "zone1" _ _ _ rfl

/-- C9 (amended): the poll loop of `RetrieveCertificate` consults no
cancellation signal — its outcome is identical under every host
cancellation signal — and no run of the loop ever produces the Cancelled
outcome the spec demands; its exits are only issued / status-error /
issuance-failed / pending / timed-out (or fuel exhaustion in this bounded
embedding). -/
theorem C9_no_cancellation_check :
    (∀ (cancel1 cancel2 : Nat → Bool) (pickupID : String) (timeout startTime : Nat)
       (statusFetch : Nat → Except String certificateStatus) (fuel i now : Nat),
       pollLoopCancelAware cancel1 pickupID timeout startTime statusFetch fuel i now
         = pollLoopCancelAware cancel2 pickupID timeout startTime statusFetch fuel i now)
  ∧ (∀ (pickupID : String) (timeout startTime : Nat)
       (statusFetch : Nat → Except String certificateStatus) (fuel i now : Nat),
       (pollLoop pickupID timeout startTime statusFetch fuel i now).1 ≠ .cancelledHost) := by
  constructor
  · intro cancel1 cancel2 pickupID timeout startTime statusFetch fuel i now
    rfl
  · intro pickupID timeout startTime statusFetch fuel
    induction fuel with
    | zero => intro i now h; simp [pollLoop] at h
    | succ f ih =>
      intro i now
      rcases hfi : statusFetch i with e | st
      · simp [pollLoop, hfi]
      · simp only [pollLoop, hfi]
        split_ifs
        · simp
        · simp
        · simp
        · simp
        · simpa using ih (i + 1) (now + 2)

/-- C9, counterexample to the claim as stated: with the host cancellation
signal asserted from the very first iteration, the loop still runs its
normal body and returns the certificate-pending outcome — it never aborts
with the Cancelled outcome, because connector.go:248-267 reads no
cancellation signal at all. -/
theorem C9_counterexample :
    pollLoopCancelAware (fun _ => true) "R1" 0 0
        (fun _ => .ok ⟨"PENDING", "", ""⟩) 1 0 0
      = (.pending "R1" "PENDING", [.statusGet "R1"])
    ∧ (pollLoopCancelAware (fun _ => true) "R1" 0 0
        (fun _ => .ok ⟨"PENDING", "", ""⟩) 1 0 0).1 ≠ .cancelledHost := by
  constructor
  · rfl
  · intro h
    exact PollResult.noConfusion h

/-- C10: `RequestCertificate` and `RenewCertificate` read the first
element of the parsed acknowledgment's request list without an emptiness
check: when every earlier step succeeds and the parsed list is empty the
indexing panics (out of range); a request id is returned exactly when the
list is non-empty, and it is the head's id. -/
theorem C10_ack_empty_list_panics :
    (∀ (c : Connector) (req : Request) (zoneArg : String)
       (zoneFetch : String → Except String zone)
       (post : certificateRequest → Except String (Nat × String × String))
       (parseCR : Nat → String → String → Except String certificateRequestResult)
       (z : zone) (code : Nat) (status rbody : String) (cr : certificateRequestResult),
       req.CsrOrigin ≠ .ServiceGenerated → connectorNotAuthed c = false →
       zoneFetch (if zoneArg = "" then c.zone else zoneArg) = .ok z →
       post { ZoneID := z.ID, CSR := req.CSR, ExistingManagedCertificateId := "",
              ReuseCSR := false } = .ok (code, status, rbody) →
       parseCR code status rbody = .ok cr →
       (cr.CertificateRequests = [] →
          (RequestCertificate c req zoneArg zoneFetch post parseCR).1
            = .crashed "index out of range")
       ∧ (∀ x tl, cr.CertificateRequests = x :: tl →
          (RequestCertificate c req zoneArg zoneFetch post parseCR).1 = .ok x.ID))
  ∧ (∀ (c : Connector) (renewReq : RenewalRequest)
       (doSearch : SearchRequest → Except String CertificateSearchResponse)
       (statusFetchById : String → Except String certificateStatus)
       (managedFetch : String → Except String managedCertificate)
       (post : certificateRequest → Except String (Nat × String × String))
       (parseCR : Nat → String → String → Except String certificateRequestResult)
       (R : String) (prev : certificateStatus) (m : managedCertificate)
       (code : Nat) (status rbody : String) (cr : certificateRequestResult),
       renewReq.Thumbprint = "" → renewReq.CertificateDN = R → R ≠ "" →
       statusFetchById R = .ok prev →
       prev.ManagedCertificateId ≠ "" → prev.ZoneId ≠ "" →
       managedFetch prev.ManagedCertificateId = .ok m →
       m.LatestCertificateRequestId = R →
       connectorNotAuthed c = false →
       renewReq.CertificateRequest = none →
       post { ZoneID := prev.ZoneId, CSR := "",
              ExistingManagedCertificateId := prev.ManagedCertificateId,
              ReuseCSR := true } = .ok (code, status, rbody) →
       parseCR code status rbody = .ok cr →
       (cr.CertificateRequests = [] →
          (RenewCertificate c renewReq doSearch statusFetchById managedFetch
              post parseCR).1 = .crashed "index out of range")
       ∧ (∀ x tl, cr.CertificateRequests = x :: tl →
          (RenewCertificate c renewReq doSearch statusFetchById managedFetch
              post parseCR).1 = .ok x.ID)) := by
  constructor
  · intro c req zoneArg zoneFetch post parseCR z code status rbody cr
      hcsr hauth hz hpost hparse
    constructor
    · intro hempty
      simp [RequestCertificate, hcsr, hauth, hz, hpost, hparse, hempty]
    · intro x tl hcons
      simp [RequestCertificate, hcsr, hauth, hz, hpost, hparse, hcons]
  · intro c renewReq doSearch statusFetchById managedFetch post parseCR R prev m
      code status rbody cr hThumb hDN hR hprev hmc hzone hm hlatest hauth hCR hpost hparse
    constructor
    · intro hempty
      simp [RenewCertificate, hThumb, hDN, hR, hprev, hmc, hzone, hm, hlatest, hauth,
        hCR, hpost, hparse, hempty]
    · intro x tl hcons
      simp [RenewCertificate, hThumb, hDN, hR, hprev, hmc, hzone, hm, hlatest, hauth,
        hCR, hpost, hparse, hcons]

theorem C10_witness :
    (RequestCertificate
      { baseURL := "", apiKey := "", user := some { Company := some () }, zone := "Z" }
      { CsrOrigin := .UserProvided, CSR := "csr", FetchPrivateKey := false, PickupID := "",
        Thumbprint := "", Timeout := 0, ChainOption := .RootLast }
      "" (fun _ => .ok { ID := "zid", DefaultCertificateIdentityPolicy := "",
                         DefaultCertificateUsePolicy := "" })
      (fun _ => .ok (201, "Created", "body"))
      (fun _ _ _ => .ok { CertificateRequests := [] })).1
      = .crashed "index out of range" :=
  (C10_ack_empty_list_panics.1
    { baseURL := "", apiKey := "", user := some { Company := some () }, zone := "Z" }
    { CsrOrigin := .UserProvided, CSR := "csr", FetchPrivateKey := false, PickupID := "",
      Thumbprint := "", Timeout := 0, ChainOption := .RootLast }
    ""
    (fun _ => .ok { ID := "zid", DefaultCertificateIdentityPolicy := "",
                    DefaultCertificateUsePolicy := "" })
    (fun _ => .ok (201, "Created", "body"))
    (fun _ _ _ => .ok { CertificateRequests := [] })
    { ID := "zid", DefaultCertificateIdentityPolicy := "", DefaultCertificateUsePolicy := "" }
    201 "Created" "body" { CertificateRequests := [] }
    (by decide) rfl rfl rfl rfl).1 rfl

end VenafiCloud
